import Mathlib

/-!
Shallow embedding of `recommendation_service.py` (class `Recommendations`)
and the parts of pandas it relies on.

Modelling conventions, each taken from the source or from documented
pandas/python behaviour:

* A pandas DataFrame becomes a `Table`: a list of rows together with
  Boolean flags recording which optional columns the frame's schema has
  (the source's `"score" in df.columns` tests in `_order_personal` and
  `_order_top`).  `final_ranked` and `personal_als` are user-indexed
  after `load` calls `set_index("user_id")`; we keep `user_id` as a row
  field, so setting the index is the identity on our representation.
* Python floats are modelled as exact rationals `ℚ`.  Every comparison
  that a proved theorem relies on is either between exactly
  representable doubles or tie-free with a margin far above double
  rounding error, so the rational model agrees with IEEE doubles there.
* `df.loc[user_id]` on a user-indexed frame keeps exactly the rows whose
  `user_id` equals the key, in table order; the `KeyError` branch of the
  source corresponds to that filter being empty.  (The source converts a
  single-row `Series` back to a one-row frame; both cases are the plain
  filter here.)
* `df.head(k)` and the python slice `l[:k]` keep the first `k` elements
  when `k ≥ 0` and drop the last `|k|` elements when `k < 0`; both are
  `pyTake`.
* pandas `sort_values` on two keys ignores the `kind` argument and uses
  `np.lexsort`, a stable sort; on one key with `ascending=False` it
  reverses the input, argsorts, and reverses the result, so a stable
  underlying argsort again keeps equal keys in their original order.
  Each sort is realised as a merge sort over index-decorated rows with a
  total comparator whose final tie-break is the original position, which
  pins the result uniquely and makes it the stable sort in the requested
  directions.  (The default numpy `kind="quicksort"` is introsort, which
  is insertion sort — stable — below 17 elements; every concrete list
  sorted in a theorem below is well inside that regime.)
* The usage counters `_stats` are a record of naturals; `load`'s S3
  fetch is out of scope, so `load` receives the would-be fetched frame
  as an argument and the invalid-name check is shown not to depend on
  it.
-/

namespace RecSys

/-- One row of a recommendation table.  `score`, `rank`, `listen_count`
are meaningful only when the owning `Table`'s corresponding flag is set;
`track_id` is always present (`S3_KEYS` schema comments). -/
structure Row where
  user_id : Int
  track_id : Int
  score : ℚ
  rank : Int
  listen_count : Int
deriving DecidableEq

/-- A loaded DataFrame: schema flags for the optional columns plus the
rows in frame order. -/
structure Table where
  hasScore : Bool
  hasRank : Bool
  hasListen : Bool
  rows : List Row
deriving DecidableEq

/-- The `_stats` dictionary of `Recommendations.__init__`. -/
structure Stats where
  request_personal_count : Nat
  request_default_count : Nat
  request_with_online_count : Nat
deriving DecidableEq

/-- The mutable state of a `Recommendations` instance: the `_recs`
slots (each optionally loaded) and the `_stats` counters. -/
structure State where
  final_ranked : Option Table
  personal_als : Option Table
  top_popular : Option Table
  stats : Stats
deriving DecidableEq

/-- `df.head(k)` on a frame with rows `l`, equally the python slice
`l[:k]`: first `k` elements for `k ≥ 0`, all but the last `|k|` for
`k < 0`. -/
def pyTake (k : Int) (l : List α) : List α :=
  if 0 ≤ k then l.take k.toNat else l.take (l.length - (-k).toNat)

/-- Comparator for the index-decorated stable sort: primary key `k1`
ascending, secondary key `k2` ascending, original position as the final
tie-break.  A descending key is obtained by negating it. -/
def leKey (k1 k2 : α → ℚ) (a b : Nat × α) : Bool :=
  decide (k1 a.2 < k1 b.2 ∨ (k1 a.2 = k1 b.2 ∧
    (k2 a.2 < k2 b.2 ∨ (k2 a.2 = k2 b.2 ∧ a.1 ≤ b.1))))

/-- Stable sort of `l` by `k1` ascending then `k2` ascending (ties keep
their original relative order): the model of pandas `sort_values`. -/
def sortOnKeys (k1 k2 : α → ℚ) (l : List α) : List α :=
  (l.enum.mergeSort (leKey k1 k2)).map Prod.snd

/-- `_order_personal`: `score` descending then `rank` ascending when both
columns exist, else whichever single key exists, else the input order.
The schema flags come from the frame the rows were taken from. -/
def order_personal (t : Table) (rows : List Row) : List Row :=
  if t.hasScore && t.hasRank then
    sortOnKeys (fun r => -r.score) (fun r => (r.rank : ℚ)) rows
  else if t.hasScore then
    sortOnKeys (fun r => -r.score) (fun r => -r.score) rows
  else if t.hasRank then
    sortOnKeys (fun r => (r.rank : ℚ)) (fun r => (r.rank : ℚ)) rows
  else rows

/-- `_order_top`: `listen_count` descending then `rank` ascending, with
the same single-key and no-key fallbacks as `_order_personal`. -/
def order_top (t : Table) (rows : List Row) : List Row :=
  if t.hasListen && t.hasRank then
    sortOnKeys (fun r => -(r.listen_count : ℚ)) (fun r => (r.rank : ℚ)) rows
  else if t.hasListen then
    sortOnKeys (fun r => -(r.listen_count : ℚ)) (fun r => -(r.listen_count : ℚ)) rows
  else if t.hasRank then
    sortOnKeys (fun r => (r.rank : ℚ)) (fun r => (r.rank : ℚ)) rows
  else rows

/-- `df.loc[user_id]` on a user-indexed frame: the rows with that key,
in frame order.  Empty result models the `KeyError` branch. -/
def matchedRows (t : Table) (uid : Int) : List Row :=
  t.rows.filter (fun r => r.user_id == uid)

/-- `self._stats["request_personal_count"] += 1`. -/
def bumpPersonal (s : State) : State :=
  { s with stats := { s.stats with
      request_personal_count := s.stats.request_personal_count + 1 } }

/-- `self._stats["request_default_count"] += 1`. -/
def bumpDefault (s : State) : State :=
  { s with stats := { s.stats with
      request_default_count := s.stats.request_default_count + 1 } }

/-- `self._stats["request_with_online_count"] += 1`. -/
def bumpOnline (s : State) : State :=
  { s with stats := { s.stats with
      request_with_online_count := s.stats.request_with_online_count + 1 } }

/-- Tier 3 of `get_offline`: the whole `top_popular` table ordered by
`_order_top`, first `k` track ids, default counter bumped; empty result
and unchanged state when no table is loaded at all. -/
def offlineTier3 (s : State) (k : Int) : List Int × State :=
  match s.top_popular with
  | some tp =>
      ((pyTake k (order_top tp tp.rows)).map (fun r => r.track_id), bumpDefault s)
  | none => ([], s)

/-- Tier 2 of `get_offline`: `personal_als`, falling through to tier 3
on a missing table or an empty lookup. -/
def offlineTier2 (s : State) (uid k : Int) : List Int × State :=
  match s.personal_als with
  | some pa =>
      if matchedRows pa uid = [] then offlineTier3 s k
      else ((pyTake k (order_personal pa (matchedRows pa uid))).map (fun r => r.track_id),
            bumpPersonal s)
  | none => offlineTier3 s k

/-- `Recommendations.get_offline`: tiered resolution
`final_ranked → personal_als → top_popular`, returning the track list
and the updated state. -/
def get_offline (s : State) (uid k : Int) : List Int × State :=
  match s.final_ranked with
  | some fr =>
      if matchedRows fr uid = [] then offlineTier2 s uid k
      else ((pyTake k (order_personal fr (matchedRows fr uid))).map (fun r => r.track_id),
            bumpPersonal s)
  | none => offlineTier2 s uid k

/-- `offline_score` of the candidate at zero-based position `i`:
`1.0 / (i + 1)`. -/
def offlineScorePos (i : Nat) : ℚ := 1 / (i + 1)

/-- `online_boost`: `1.0` when the track id is in `recent_tracks`, else
`0.0`. -/
def onlineBoost (recent : List Int) (tid : Int) : ℚ :=
  if tid ∈ recent then 1 else 0

/-- `final_score = (1 - alpha) * offline_score + alpha * online_boost`
for the candidate at position `i`. -/
def blendScore (alpha : ℚ) (recent : List Int) (i : Nat) (tid : Int) : ℚ :=
  (1 - alpha) * offlineScorePos i + alpha * onlineBoost recent tid

/-- Python's truthiness for `Optional[List[int]]`: `None` and `[]` are
both falsy (`if not recent_tracks`). -/
def rtList : Option (List Int) → List Int
  | none => []
  | some l => l

/-- `Recommendations.get_with_online`: oversampled offline candidates,
binary recency boost, blended score, stable descending sort, top-`k`. -/
def get_with_online (s : State) (uid k : Int)
    (recent_tracks : Option (List Int)) (alpha : ℚ) : List Int × State :=
  let res := get_offline s uid (k * 5)
  let offline := res.1
  let s1 := res.2
  if offline = [] then ([], s1)
  else if rtList recent_tracks = [] then (pyTake k offline, s1)
  else
    let s2 := bumpOnline s1
    let sorted := sortOnKeys
      (fun p => -(blendScore alpha (rtList recent_tracks) p.1 p.2))
      (fun p => -(blendScore alpha (rtList recent_tracks) p.1 p.2))
      offline.enum
    ((pyTake k sorted).map Prod.snd, s2)

/-- The keys of the `S3_KEYS` dictionary. -/
def S3_KEYS : List String := ["top_popular", "personal_als", "final_ranked"]

/-- The message of the `ValueError` raised by `load` on an unknown
`rtype`. -/
def loadError : String := "rtype must be in [top_popular, personal_als, final_ranked]"

/-- `Recommendations.load`: the name check precedes the S3 fetch, so the
fetched frame is a parameter the error branch cannot depend on.  Setting
the `user_id` index is the identity on our row representation. -/
def load (s : State) (rtype : String) (df : Table) : Except String State :=
  if S3_KEYS.contains rtype then
    Except.ok
      (if rtype == "final_ranked" then { s with final_ranked := some df }
       else if rtype == "personal_als" then { s with personal_als := some df }
       else { s with top_popular := some df })
  else Except.error loadError

/-- The full ordered candidate list of the tier `get_offline` serves a
request from, before the `head(k)` truncation (empty when no tier
applies).  Mirrors the tier structure of `get_offline`. -/
def tierTracks3 (s : State) : List Int :=
  match s.top_popular with
  | some tp => (order_top tp tp.rows).map (fun r => r.track_id)
  | none => []

/-- Tier-2 part of `tierTracks`. -/
def tierTracks2 (s : State) (uid : Int) : List Int :=
  match s.personal_als with
  | some pa =>
      if matchedRows pa uid = [] then tierTracks3 s
      else (order_personal pa (matchedRows pa uid)).map (fun r => r.track_id)
  | none => tierTracks3 s

/-- Full ordered candidate list for `get_offline s uid`, any `k`. -/
def tierTracks (s : State) (uid : Int) : List Int :=
  match s.final_ranked with
  | some fr =>
      if matchedRows fr uid = [] then tierTracks2 s uid
      else (order_personal fr (matchedRows fr uid)).map (fun r => r.track_id)
  | none => tierTracks2 s uid

/-- Tier-3 part of `tierState`. -/
def tierState3 (s : State) : State :=
  match s.top_popular with
  | some _ => bumpDefault s
  | none => s

/-- Tier-2 part of `tierState`. -/
def tierState2 (s : State) (uid : Int) : State :=
  match s.personal_als with
  | some pa => if matchedRows pa uid = [] then tierState3 s else bumpPersonal s
  | none => tierState3 s

/-- The state `get_offline s uid k` leaves behind; it does not depend on
`k`. -/
def tierState (s : State) (uid : Int) : State :=
  match s.final_ranked with
  | some fr => if matchedRows fr uid = [] then tierState2 s uid else bumpPersonal s
  | none => tierState2 s uid

/-- `final_ranked` table for the two-row scenario: user `1` with tracks
`10, 20`, scores `2, 1`, ranks `1, 2`. -/
def frTwo : Table :=
  ⟨true, true, false, [⟨1, 10, 2, 1, 0⟩, ⟨1, 20, 1, 2, 0⟩]⟩

/-- State holding only `frTwo`, counters at zero. -/
def stateTwo : State := ⟨some frTwo, none, none, ⟨0, 0, 0⟩⟩

/-- `final_ranked` table for the three-row scenario: user `1` with
tracks `10, 20, 30`, scores `3, 2, 1`, ranks `1, 2, 3`. -/
def frThree : Table :=
  ⟨true, true, false, [⟨1, 10, 3, 1, 0⟩, ⟨1, 20, 2, 2, 0⟩, ⟨1, 30, 1, 3, 0⟩]⟩

/-- State holding only `frThree`, counters at zero. -/
def stateThree : State := ⟨some frThree, none, none, ⟨0, 0, 0⟩⟩

/-- Scenario C table: user `42` with tracks `5, 7, 9, 11, 13`, strictly
decreasing scores, ranks `1..5`. -/
def frScenC : Table :=
  ⟨true, true, false,
    [⟨42, 5, 5, 1, 0⟩, ⟨42, 7, 4, 2, 0⟩, ⟨42, 9, 3, 3, 0⟩,
     ⟨42, 11, 2, 4, 0⟩, ⟨42, 13, 1, 5, 0⟩]⟩

/-- State holding only `frScenC`, counters at zero. -/
def stateScenC : State := ⟨some frScenC, none, none, ⟨0, 0, 0⟩⟩

/-- `final_ranked` table with seven rows for user `1`: tracks `1..7`,
scores `7..1`, ranks `1..7`. -/
def frSeven : Table :=
  ⟨true, true, false,
    [⟨1, 1, 7, 1, 0⟩, ⟨1, 2, 6, 2, 0⟩, ⟨1, 3, 5, 3, 0⟩, ⟨1, 4, 4, 4, 0⟩,
     ⟨1, 5, 3, 5, 0⟩, ⟨1, 6, 2, 6, 0⟩, ⟨1, 7, 1, 7, 0⟩]⟩

/-- State holding only `frSeven`, counters at zero. -/
def stateSeven : State := ⟨some frSeven, none, none, ⟨0, 0, 0⟩⟩

/-! ### General lemmas about the embedding -/

theorem pyTake_map (f : α → β) (k : Int) (l : List α) :
    (pyTake k l).map f = pyTake k (l.map f) := by
  unfold pyTake
  split <;> simp [List.map_take]

theorem pyTake_nil (k : Int) : pyTake k ([] : List α) = [] := by
  unfold pyTake
  split <;> simp

theorem pyTake_nonneg {k : Int} (hk : 0 ≤ k) (l : List α) :
    pyTake k l = l.take k.toNat := by
  unfold pyTake
  rw [if_pos hk]

theorem pyTake_mul_self {k : Int} (hk : 0 ≤ k) (l : List α) :
    pyTake k (pyTake (k * 5) l) = pyTake k (pyTake k l) := by
  have hk5 : (0 : Int) ≤ k * 5 := by positivity
  rw [pyTake_nonneg hk, pyTake_nonneg hk5, pyTake_nonneg hk, pyTake_nonneg hk,
    List.take_take, List.take_take]
  congr 1
  omega

theorem leKey_total (k1 k2 : α → ℚ) (a b : Nat × α) :
    leKey k1 k2 a b || leKey k1 k2 b a := by
  simp only [leKey, Bool.or_eq_true, decide_eq_true_eq]
  rcases lt_trichotomy (k1 a.2) (k1 b.2) with h | h | h
  · exact Or.inl (Or.inl h)
  · rcases lt_trichotomy (k2 a.2) (k2 b.2) with h2 | h2 | h2
    · exact Or.inl (Or.inr ⟨h, Or.inl h2⟩)
    · rcases Nat.le_total a.1 b.1 with h3 | h3
      · exact Or.inl (Or.inr ⟨h, Or.inr ⟨h2, h3⟩⟩)
      · exact Or.inr (Or.inr ⟨h.symm, Or.inr ⟨h2.symm, h3⟩⟩)
    · exact Or.inr (Or.inr ⟨h.symm, Or.inl h2⟩)
  · exact Or.inr (Or.inl h)

theorem leKey_trans (k1 k2 : α → ℚ) (a b c : Nat × α)
    (hab : leKey k1 k2 a b) (hbc : leKey k1 k2 b c) : leKey k1 k2 a c := by
  simp only [leKey, decide_eq_true_eq] at hab hbc ⊢
  rcases hab with h | ⟨h, h2⟩
  · rcases hbc with g | ⟨g, g2⟩
    · exact Or.inl (h.trans g)
    · exact Or.inl (by rw [← g]; exact h)
  · rcases hbc with g | ⟨g, g2⟩
    · exact Or.inl (by rw [h]; exact g)
    · refine Or.inr ⟨h.trans g, ?_⟩
      rcases h2 with h2 | ⟨h2, h3⟩
      · rcases g2 with g2 | ⟨g2, g3⟩
        · exact Or.inl (h2.trans g2)
        · exact Or.inl (by rw [← g2]; exact h2)
      · rcases g2 with g2 | ⟨g2, g3⟩
        · exact Or.inl (by rw [h2]; exact g2)
        · exact Or.inr ⟨h2.trans g2, Nat.le_trans h3 g3⟩

theorem sortOnKeys_perm (k1 k2 : α → ℚ) (l : List α) :
    (sortOnKeys k1 k2 l).Perm l := by
  unfold sortOnKeys
  have h := (List.mergeSort_perm l.enum (leKey k1 k2)).map Prod.snd
  rwa [List.enum_map_snd] at h

theorem sortOnKeys_pairwise (k1 k2 : α → ℚ) (l : List α) :
    (l.enum.mergeSort (leKey k1 k2)).Pairwise (fun a b => leKey k1 k2 a b) :=
  List.sorted_mergeSort (leKey_trans k1 k2) (leKey_total k1 k2) l.enum

theorem pairwise_enum_lt (l : List α) :
    l.enum.Pairwise (fun a b => a.1 < b.1) := by
  have h := List.pairwise_lt_range l.length
  rw [← List.enum_map_fst l] at h
  exact List.pairwise_map.mp h

theorem pairwise_enum_snd {R : α → α → Prop} (l : List α) (h : l.Pairwise R) :
    l.enum.Pairwise (fun a b => R a.2 b.2) := by
  rw [← List.enum_map_snd l] at h
  exact List.pairwise_map.mp h

theorem snd_mem_of_mem_enum {a : Nat × α} {l : List α} (h : a ∈ l.enum) :
    a.2 ∈ l :=
  List.snd_mem_of_mem_enumFrom h

theorem sortOnKeys_of_strict (k1 k2 : α → ℚ) (l : List α)
    (h : l.enum.Pairwise (fun a b => k1 a.2 < k1 b.2)) :
    sortOnKeys k1 k2 l = l := by
  unfold sortOnKeys
  have hs : l.enum.Pairwise (fun a b => leKey k1 k2 a b) := by
    refine h.imp ?_
    intro a b hab
    simp only [leKey, decide_eq_true_eq]
    exact Or.inl hab
  rw [List.mergeSort_of_sorted hs, List.enum_map_snd]

theorem offlineTier3_fst (s : State) (k : Int) :
    (offlineTier3 s k).1 = pyTake k (tierTracks3 s) := by
  obtain ⟨fr, pa, tp, st⟩ := s
  cases tp with
  | none => simp [offlineTier3, tierTracks3, pyTake_nil]
  | some t => simp [offlineTier3, tierTracks3, pyTake_map]

theorem offlineTier2_fst (s : State) (uid k : Int) :
    (offlineTier2 s uid k).1 = pyTake k (tierTracks2 s uid) := by
  obtain ⟨fr, pa, tp, st⟩ := s
  cases pa with
  | none => exact offlineTier3_fst ⟨fr, none, tp, st⟩ k
  | some t =>
      by_cases h : matchedRows t uid = []
      · simpa [offlineTier2, tierTracks2, h] using offlineTier3_fst ⟨fr, some t, tp, st⟩ k
      · simp [offlineTier2, tierTracks2, h, pyTake_map]

theorem get_offline_fst (s : State) (uid k : Int) :
    (get_offline s uid k).1 = pyTake k (tierTracks s uid) := by
  obtain ⟨fr, pa, tp, st⟩ := s
  cases fr with
  | none => exact offlineTier2_fst ⟨none, pa, tp, st⟩ uid k
  | some t =>
      by_cases h : matchedRows t uid = []
      · simpa [get_offline, tierTracks, h] using offlineTier2_fst ⟨some t, pa, tp, st⟩ uid k
      · simp [get_offline, tierTracks, h, pyTake_map]

theorem offlineTier3_snd (s : State) (k : Int) :
    (offlineTier3 s k).2 = tierState3 s := by
  obtain ⟨fr, pa, tp, st⟩ := s
  cases tp <;> rfl

theorem offlineTier2_snd (s : State) (uid k : Int) :
    (offlineTier2 s uid k).2 = tierState2 s uid := by
  obtain ⟨fr, pa, tp, st⟩ := s
  cases pa with
  | none => exact offlineTier3_snd ⟨fr, none, tp, st⟩ k
  | some t =>
      by_cases h : matchedRows t uid = []
      · simpa [offlineTier2, tierState2, h] using offlineTier3_snd ⟨fr, some t, tp, st⟩ k
      · simp [offlineTier2, tierState2, h]

theorem get_offline_snd (s : State) (uid k : Int) :
    (get_offline s uid k).2 = tierState s uid := by
  obtain ⟨fr, pa, tp, st⟩ := s
  cases fr with
  | none => exact offlineTier2_snd ⟨none, pa, tp, st⟩ uid k
  | some t =>
      by_cases h : matchedRows t uid = []
      · simpa [get_offline, tierState, h] using offlineTier2_snd ⟨some t, pa, tp, st⟩ uid k
      · simp [get_offline, tierState, h]

theorem tierState_tables (s : State) (uid : Int) :
    (tierState s uid).final_ranked = s.final_ranked
    ∧ (tierState s uid).personal_als = s.personal_als
    ∧ (tierState s uid).top_popular = s.top_popular := by
  obtain ⟨fr, pa, tp, st⟩ := s
  unfold tierState tierState2 tierState3
  cases fr <;> cases pa <;> cases tp
  all_goals repeat' split
  all_goals simp [bumpPersonal, bumpDefault]

theorem tierState_online_count (s : State) (uid : Int) :
    (tierState s uid).stats.request_with_online_count
      = s.stats.request_with_online_count := by
  obtain ⟨fr, pa, tp, st⟩ := s
  unfold tierState tierState2 tierState3
  cases fr <;> cases pa <;> cases tp
  all_goals repeat' split
  all_goals simp [bumpPersonal, bumpDefault]

theorem get_with_online_snd (s : State) (uid k : Int)
    (rt : Option (List Int)) (alpha : ℚ) :
    (get_with_online s uid k rt alpha).2
      = if (get_offline s uid (k * 5)).1 = [] then (get_offline s uid (k * 5)).2
        else if rtList rt = [] then (get_offline s uid (k * 5)).2
        else bumpOnline (get_offline s uid (k * 5)).2 := by
  by_cases h1 : (get_offline s uid (k * 5)).1 = []
  · simp only [get_with_online]
    rw [if_pos h1, if_pos h1]
  · by_cases h2 : rtList rt = []
    · simp only [get_with_online]
      rw [if_neg h1, if_neg h1, if_pos h2, if_pos h2]
    · simp only [get_with_online]
      rw [if_neg h1, if_neg h1, if_neg h2, if_neg h2]

theorem offlineScorePos_lt {i j : Nat} (h : i < j) :
    offlineScorePos j < offlineScorePos i := by
  unfold offlineScorePos
  have hi : (0 : ℚ) < (i : ℚ) + 1 := by positivity
  have hj : (0 : ℚ) < (j : ℚ) + 1 := by positivity
  rw [div_lt_div_iff₀ hj hi]
  have hij : (i : ℚ) < (j : ℚ) := by exact_mod_cast h
  nlinarith

theorem blendScore_zero (r : List Int) (i : Nat) (t : Int) :
    blendScore 0 r i t = offlineScorePos i := by
  unfold blendScore
  ring

theorem blendScore_boosted_lt {alpha : ℚ} (ha : alpha < 1) (r : List Int)
    {i j : Nat} (hij : i < j) {ti tj : Int} (hti : ti ∈ r) (htj : tj ∈ r) :
    blendScore alpha r j tj < blendScore alpha r i ti := by
  unfold blendScore onlineBoost
  rw [if_pos hti, if_pos htj]
  have h1 : offlineScorePos j < offlineScorePos i := offlineScorePos_lt hij
  have h2 : (0 : ℚ) < 1 - alpha := by linarith
  nlinarith

theorem blend_sort_identity (alpha : ℚ) (r : List Int) (offline : List Int)
    (h : ∀ a b : Nat × Int, a ∈ offline.enum → b ∈ offline.enum → a.1 < b.1 →
      blendScore alpha r b.1 b.2 < blendScore alpha r a.1 a.2) :
    sortOnKeys (fun p => -(blendScore alpha r p.1 p.2))
      (fun p => -(blendScore alpha r p.1 p.2)) offline.enum = offline.enum := by
  apply sortOnKeys_of_strict
  have hp : offline.enum.Pairwise
      (fun p q => -(blendScore alpha r p.1 p.2) < -(blendScore alpha r q.1 q.2)) := by
    refine (pairwise_enum_lt offline).imp_of_mem ?_
    intro a b ha hb hab
    exact neg_lt_neg (h a b ha hb hab)
  have h2 := pairwise_enum_snd
    (R := fun p q : Nat × Int => -(blendScore alpha r p.1 p.2) < -(blendScore alpha r q.1 q.2))
    offline.enum hp
  simpa using h2

theorem pyTake_nil_of_nil_mul {k : Int} {l : List α} (hk : 0 ≤ k)
    (h : pyTake (k * 5) l = []) : pyTake k l = [] := by
  have hk5 : (0 : Int) ≤ k * 5 := by positivity
  unfold pyTake at h ⊢
  rw [if_pos hk5] at h
  rw [if_pos hk]
  rcases List.take_eq_nil_iff.mp h with h5 | hl
  · have : k.toNat = 0 := by omega
    simp [this]
  · simp [hl]

/-! ### Claims -/

/-- C1, counterexample: with `final_ranked` holding two rows for user
`1` and `k = -1`, `get_offline` returns the non-empty list `[10]`
(pandas `head(-1)` keeps all but the last row) and still increments the
personal-request counter — refuting the claim that every `k ≤ 0` yields
an empty sequence with no lookup and no counter increment. -/
theorem claim_C1_counterexample :
    (get_offline stateTwo 1 (-1)).1 = [10]
    ∧ (get_offline stateTwo 1 (-1)).2.stats.request_personal_count = 1 := by
  constructor <;> with_unfolding_all decide

/-- C1 (corrected): `get_offline` has no `k ≤ 0` guard.  For `k ≤ 0` it
still performs the tier lookup and changes the counters exactly as a
positive-`k` call would, returning `head(k)` of the ordered tier tracks:
empty for `k = 0`, all but the last `|k|` (hence possibly non-empty) for
`k < 0`. -/
theorem claim_C1_amended (s : State) (uid k : Int) (_hk : k ≤ 0) :
    (get_offline s uid k).1 = pyTake k (tierTracks s uid)
    ∧ (get_offline s uid k).2 = (get_offline s uid 1).2 := by
  refine ⟨get_offline_fst s uid k, ?_⟩
  rw [get_offline_snd, get_offline_snd]

/-- C1 witness: the amended statement at the two-row state, `k = -1`. -/
theorem claim_C1_witness :
    (-1 : Int) ≤ 0
    ∧ ((get_offline stateTwo 1 (-1)).1 = pyTake (-1) (tierTracks stateTwo 1)
      ∧ (get_offline stateTwo 1 (-1)).2 = (get_offline stateTwo 1 1).2) :=
  ⟨by decide, claim_C1_amended stateTwo 1 (-1) (by decide)⟩

/-- C3, counterexample: with three candidates and `recent_tracks = [20]`,
`get_with_online` at the out-of-range `alpha = -1` silently computes the
ranking `[10, 30, 20]`, which differs from the ranking `[10, 20, 30]` at
the clamp boundary `alpha = 0`; no error is raised, so the engine
neither clamps nor rejects the out-of-range weight. -/
theorem claim_C3_counterexample :
    (get_with_online stateThree 1 3 (some [20]) (-1)).1 = [10, 30, 20]
    ∧ (get_with_online stateThree 1 3 (some [20]) 0).1 = [10, 20, 30] := by
  constructor <;> with_unfolding_all decide

/-- C3 (corrected): `get_with_online` performs no validation of `alpha`:
an out-of-range value is used as-is in the blend — at `alpha = -1` the
call completes normally, returns a ranking different from the
clamped-to-`0` ranking, and still increments the blend counter. -/
theorem claim_C3_theorem :
    (get_with_online stateThree 1 3 (some [20]) (-1)).1 = [10, 30, 20]
    ∧ (get_with_online stateThree 1 3 (some [20]) (-1)).2.stats.request_with_online_count = 1
    ∧ (get_with_online stateThree 1 3 (some [20]) 0).1 = [10, 20, 30] := by
  refine ⟨?_, ?_, ?_⟩ <;> with_unfolding_all decide

/-- C5, counterexample: at `k = -1` on a seven-row table, with non-empty
`recent_tracks` and `alpha = 0`, blending oversamples with `head(-5)`
(two candidates survive) and truncates with `head(-1)`, returning `[1]`,
while the plain offline result truncated to `k` is `[1, 2, 3, 4, 5]` —
the claim fails for negative `k`. -/
theorem claim_C5_counterexample :
    (get_with_online stateSeven 1 (-1) (some [99]) 0).1 = [1]
    ∧ pyTake (-1) (get_offline stateSeven 1 (-1)).1 = [1, 2, 3, 4, 5] := by
  constructor <;> with_unfolding_all decide

/-- C5 (corrected): for every `k ≥ 0`, every user, every table state and
every non-empty `recent_tracks`, blending with `alpha = 0` returns
exactly the plain offline resolution result truncated to `k`. -/
theorem claim_C5_amended (s : State) (uid k : Int) (recent : List Int)
    (hr : recent ≠ []) (hk : 0 ≤ k) :
    (get_with_online s uid k (some recent) 0).1
      = pyTake k (get_offline s uid k).1 := by
  have hoff5 : (get_offline s uid (k * 5)).1 = pyTake (k * 5) (tierTracks s uid) :=
    get_offline_fst s uid (k * 5)
  have hoffk : (get_offline s uid k).1 = pyTake k (tierTracks s uid) :=
    get_offline_fst s uid k
  by_cases hoff : (get_offline s uid (k * 5)).1 = []
  · simp only [get_with_online]
    rw [if_pos hoff]
    have hnil : pyTake k (tierTracks s uid) = [] := by
      rw [hoff5] at hoff
      exact pyTake_nil_of_nil_mul hk hoff
    rw [hoffk, hnil, pyTake_nil]
  · have hr2 : rtList (some recent) ≠ [] := by simpa [rtList] using hr
    simp only [get_with_online]
    rw [if_neg hoff, if_neg hr2]
    have hid : sortOnKeys
        (fun p => -(blendScore 0 (rtList (some recent)) p.1 p.2))
        (fun p => -(blendScore 0 (rtList (some recent)) p.1 p.2))
        ((get_offline s uid (k * 5)).1).enum
        = ((get_offline s uid (k * 5)).1).enum := by
      apply blend_sort_identity
      intro a b ha hb hab
      rw [blendScore_zero, blendScore_zero]
      exact offlineScorePos_lt hab
    rw [hid, pyTake_map, List.enum_map_snd, hoff5, hoffk]
    exact pyTake_mul_self hk (tierTracks s uid)

/-- C5 witness: the amended statement at the two-row state with `k = 1`
and `recent_tracks = [99]`. -/
theorem claim_C5_witness :
    ([99] : List Int) ≠ [] ∧ (0 : Int) ≤ 1
    ∧ (get_with_online stateTwo 1 1 (some [99]) 0).1
        = pyTake 1 (get_offline stateTwo 1 1).1 :=
  ⟨by decide, by decide, claim_C5_amended stateTwo 1 1 [99] (by decide) (by decide)⟩

/-- C6, counterexample: offline candidates `[10, 20]`, `recent_tracks`
containing both, and `alpha = 2`: the blend score `(1-2)/(i+1) + 2` is
then increasing in the offline position, so the call returns `[20]`
rather than the offline head `[10]` — the claim fails for `alpha ≥ 1`. -/
theorem claim_C6_counterexample :
    (get_offline stateTwo 1 5).1 = [10, 20]
    ∧ (get_with_online stateTwo 1 1 (some [10, 20]) 2).1 = [20]
    ∧ pyTake 1 (get_offline stateTwo 1 5).1 = [10] := by
  refine ⟨?_, ?_, ?_⟩ <;> with_unfolding_all decide

/-- C6 (corrected): restricted to `alpha < 1` (so that the uniform boost
cannot overturn the strictly decreasing offline score), if
`recent_tracks` contains every candidate of the oversampled offline
list, the blend returns exactly that offline candidate list truncated to
`k`. -/
theorem claim_C6_amended (s : State) (uid k : Int) (recent : List Int)
    (alpha : ℚ) (ha : alpha < 1)
    (h : ∀ t ∈ (get_offline s uid (k * 5)).1, t ∈ recent) :
    (get_with_online s uid k (some recent) alpha).1
      = pyTake k (get_offline s uid (k * 5)).1 := by
  by_cases hoff : (get_offline s uid (k * 5)).1 = []
  · simp only [get_with_online]
    rw [if_pos hoff, hoff, pyTake_nil]
  · have hr : recent ≠ [] := by
      obtain ⟨t, ht⟩ := List.exists_mem_of_ne_nil _ hoff
      intro hrn
      rw [hrn] at h
      exact absurd (h t ht) (List.not_mem_nil t)
    have hr2 : rtList (some recent) ≠ [] := by simpa [rtList] using hr
    simp only [get_with_online]
    rw [if_neg hoff, if_neg hr2]
    have hid : sortOnKeys
        (fun p => -(blendScore alpha (rtList (some recent)) p.1 p.2))
        (fun p => -(blendScore alpha (rtList (some recent)) p.1 p.2))
        ((get_offline s uid (k * 5)).1).enum
        = ((get_offline s uid (k * 5)).1).enum := by
      apply blend_sort_identity
      intro a b ha2 hb2 hab
      exact blendScore_boosted_lt ha (rtList (some recent)) hab
        (h a.2 (snd_mem_of_mem_enum ha2)) (h b.2 (snd_mem_of_mem_enum hb2))
    rw [hid, pyTake_map, List.enum_map_snd]

/-- C6 witness: the amended statement at the two-row state with `k = 1`,
`recent_tracks = [10, 20]` and `alpha = 1/2`. -/
theorem claim_C6_witness :
    ((1 : ℚ)/2) < 1
    ∧ (∀ t ∈ (get_offline stateTwo 1 (1 * 5)).1, t ∈ ([10, 20] : List Int))
    ∧ (get_with_online stateTwo 1 1 (some [10, 20]) (1/2)).1
        = pyTake 1 (get_offline stateTwo 1 (1 * 5)).1 :=
  ⟨by norm_num, by with_unfolding_all decide,
    claim_C6_amended stateTwo 1 1 [10, 20] (1/2) (by norm_num)
      (by with_unfolding_all decide)⟩

/-- C7 (confirmed): Scenario C, taken literally with exact rationals.
The offline (unblended) list for user `42` at `k*5 = 5` is
`[5, 7, 9, 11, 13]`; with `recent_tracks = [9]` and `alpha = 3/10`,
track `9` at zero-based position `2` has `offline_score = 1/3`,
`online_boost = 1`, `final_score = (7/10)*(1/3) + (3/10)*1 = 8/15`;
track `5` scores `7/10 > 8/15`, and the returned top-1 list is `[5]`. -/
theorem claim_C7 :
    (get_offline stateScenC 42 5).1 = [5, 7, 9, 11, 13]
    ∧ offlineScorePos 2 = 1/3
    ∧ onlineBoost [9] 9 = 1
    ∧ blendScore (3/10) [9] 2 9 = (7/10) * (1/3) + (3/10) * 1
    ∧ blendScore (3/10) [9] 2 9 = 8/15
    ∧ blendScore (3/10) [9] 0 5 = 7/10
    ∧ blendScore (3/10) [9] 2 9 < 7/10
    ∧ (get_with_online stateScenC 42 1 (some [9]) (3/10)).1 = [5] := by
  refine ⟨?_, ?_, ?_, ?_, ?_, ?_, ?_, ?_⟩ <;> with_unfolding_all decide

/-- C8 (confirmed): `get_offline` and `get_with_online` never change the
three table slots of the state; only the usage counters move. -/
theorem claim_C8 (s : State) (uid k : Int) (rt : Option (List Int))
    (alpha : ℚ) :
    ((get_offline s uid k).2.final_ranked = s.final_ranked
      ∧ (get_offline s uid k).2.personal_als = s.personal_als
      ∧ (get_offline s uid k).2.top_popular = s.top_popular)
    ∧ ((get_with_online s uid k rt alpha).2.final_ranked = s.final_ranked
      ∧ (get_with_online s uid k rt alpha).2.personal_als = s.personal_als
      ∧ (get_with_online s uid k rt alpha).2.top_popular = s.top_popular) := by
  have h1 := tierState_tables s uid
  constructor
  · rw [get_offline_snd]
    exact h1
  · rw [get_with_online_snd]
    by_cases h2 : (get_offline s uid (k * 5)).1 = []
    · rw [if_pos h2, get_offline_snd]
      exact h1
    · by_cases h3 : rtList rt = []
      · rw [if_neg h2, if_pos h3, get_offline_snd]
        exact h1
      · rw [if_neg h2, if_neg h3, get_offline_snd]
        simpa [bumpOnline] using h1

/-- C9 (confirmed): the blend counter is incremented exactly when
`recent_tracks` is non-empty and the oversampled offline list is
non-empty; when the offline list is empty the call returns `[]` with
the blend counter untouched, and an empty or absent `recent_tracks`
never touches it. -/
theorem claim_C9 (s : State) (uid k : Int) (rt : Option (List Int))
    (alpha : ℚ) :
    (get_with_online s uid k rt alpha).2.stats.request_with_online_count
      = s.stats.request_with_online_count
        + (if rtList rt ≠ [] ∧ (get_offline s uid (k * 5)).1 ≠ [] then 1 else 0)
    ∧ ((get_offline s uid (k * 5)).1 = []
        → (get_with_online s uid k rt alpha).1 = []) := by
  have ho : (get_offline s uid (k * 5)).2.stats.request_with_online_count
      = s.stats.request_with_online_count := by
    rw [get_offline_snd]
    exact tierState_online_count s uid
  constructor
  · rw [get_with_online_snd]
    by_cases h1 : (get_offline s uid (k * 5)).1 = []
    · rw [if_pos h1, ho]
      simp [h1]
    · by_cases h2 : rtList rt = []
      · rw [if_neg h1, if_pos h2, ho]
        simp [h2]
      · rw [if_neg h1, if_neg h2]
        simp [bumpOnline, ho, h1, h2]
  · intro h
    simp only [get_with_online]
    rw [if_pos h]

/-- C9 witness: the statement at the two-row state with `k = 1`,
`recent_tracks = [99]`, `alpha = 1/2`. -/
theorem claim_C9_witness :
    (get_with_online stateTwo 1 1 (some [99]) (1/2)).2.stats.request_with_online_count
      = stateTwo.stats.request_with_online_count
        + (if rtList (some [99]) ≠ [] ∧ (get_offline stateTwo 1 (1 * 5)).1 ≠ [] then 1 else 0)
    ∧ ((get_offline stateTwo 1 (1 * 5)).1 = []
        → (get_with_online stateTwo 1 1 (some [99]) (1/2)).1 = []) :=
  claim_C9 stateTwo 1 1 (some [99]) (1/2)

/-- C10 (confirmed): for any table name outside `S3_KEYS`, `load`
returns the `ValueError` for every possible fetched frame `df` — the
name check precedes the fetch, no table slot is written and no counter
moves, so the caller's state is untouched. -/
theorem claim_C10 (s : State) (rtype : String) (df : Table)
    (h : rtype ∉ S3_KEYS) :
    load s rtype df = Except.error loadError := by
  unfold load
  rw [if_neg (by simpa using h)]

/-- C4 (confirmed): whenever `final_ranked` is loaded and contains rows
for `uid` (for any `personal_als`, loaded or not, containing the user or
not) and `k > 0`, `get_offline` returns the first `k` track ids of those
rows sorted by score descending then rank ascending; the sorted list is
a permutation of exactly the user's `final_ranked` rows, and the
personal-request counter is incremented by exactly one while everything
else in the state is unchanged. -/
theorem claim_C4 (s : State) (fr : Table) (uid k : Int)
    (hfr : s.final_ranked = some fr)
    (hsc : fr.hasScore = true) (hrk : fr.hasRank = true)
    (hm : matchedRows fr uid ≠ []) (hk : 0 < k) :
    (get_offline s uid k).1
      = ((order_personal fr (matchedRows fr uid)).map (fun r => r.track_id)).take k.toNat
    ∧ (order_personal fr (matchedRows fr uid)).Perm (matchedRows fr uid)
    ∧ (order_personal fr (matchedRows fr uid)).Pairwise (fun a b =>
        b.score < a.score ∨ (a.score = b.score ∧ a.rank ≤ b.rank))
    ∧ (∀ r ∈ order_personal fr (matchedRows fr uid), r.user_id = uid)
    ∧ (get_offline s uid k).2
        = { s with stats := { s.stats with
              request_personal_count := s.stats.request_personal_count + 1 } } := by
  have hop : order_personal fr (matchedRows fr uid)
      = sortOnKeys (fun r => -r.score) (fun r => (r.rank : ℚ)) (matchedRows fr uid) := by
    unfold order_personal
    rw [hsc, hrk]
    simp
  have hperm : (order_personal fr (matchedRows fr uid)).Perm (matchedRows fr uid) := by
    rw [hop]
    exact sortOnKeys_perm _ _ _
  refine ⟨?_, hperm, ?_, ?_, ?_⟩
  · simp only [get_offline, hfr]
    rw [if_neg hm, pyTake_map, pyTake_nonneg (le_of_lt hk)]
  · rw [hop]
    unfold sortOnKeys
    rw [List.pairwise_map]
    refine (sortOnKeys_pairwise (fun r => -r.score) (fun r => (r.rank : ℚ))
      (matchedRows fr uid)).imp ?_
    intro a b hab
    simp only [leKey, decide_eq_true_eq] at hab
    rcases hab with h | ⟨h, h2⟩
    · exact Or.inl (neg_lt_neg_iff.mp h)
    · have hsc2 : a.2.score = b.2.score := neg_inj.mp h
      rcases h2 with h2 | ⟨h2, h3⟩
      · exact Or.inr ⟨hsc2, le_of_lt (by exact_mod_cast h2)⟩
      · exact Or.inr ⟨hsc2, le_of_eq (by exact_mod_cast h2)⟩
  · intro r hr
    have hr2 : r ∈ matchedRows fr uid := hperm.subset hr
    have hf := List.mem_filter.mp hr2
    simpa using hf.2
  · have hb : (get_offline s uid k).2 = bumpPersonal s := by
      simp only [get_offline, hfr]
      rw [if_neg hm]
    rw [hb]
    rfl

/-- C4 witness: the statement at the Scenario C state (`final_ranked`
with five rows for user `42`, no `personal_als`), `k = 2`. -/
theorem claim_C4_witness :
    stateScenC.final_ranked = some frScenC
    ∧ frScenC.hasScore = true
    ∧ frScenC.hasRank = true
    ∧ matchedRows frScenC 42 ≠ []
    ∧ (0 : Int) < 2
    ∧ ((get_offline stateScenC 42 2).1
        = ((order_personal frScenC (matchedRows frScenC 42)).map
            (fun r => r.track_id)).take (2 : Int).toNat
      ∧ (order_personal frScenC (matchedRows frScenC 42)).Perm (matchedRows frScenC 42)
      ∧ (order_personal frScenC (matchedRows frScenC 42)).Pairwise (fun a b =>
          b.score < a.score ∨ (a.score = b.score ∧ a.rank ≤ b.rank))
      ∧ (∀ r ∈ order_personal frScenC (matchedRows frScenC 42), r.user_id = 42)
      ∧ (get_offline stateScenC 42 2).2
          = { stateScenC with stats := { stateScenC.stats with
                request_personal_count := stateScenC.stats.request_personal_count + 1 } }) :=
  ⟨rfl, rfl, rfl, by with_unfolding_all decide, by decide,
    claim_C4 stateScenC frScenC 42 2 rfl rfl rfl
      (by with_unfolding_all decide) (by decide)⟩

/-- C10 witness: the statement at the name `bogus`. -/
theorem claim_C10_witness :
    "bogus" ∉ S3_KEYS
    ∧ load stateTwo "bogus" frTwo = Except.error loadError :=
  ⟨by decide, claim_C10 stateTwo "bogus" frTwo (by decide)⟩

end RecSys
